import Mathlib

/-!
Shallow embedding of the AstroBotany LEAF FDM model's environmental physics
core, translated from `src/components/Controls.tsx` (the light-aware control
panel, the canonical variant per the specification) and the state/initial
snapshot declarations in `src/types.ts`.

Numeric values are modelled as exact rationals (`ℚ`); every decimal literal
below denotes the same value as the corresponding JavaScript literal.
-/

namespace AstroBotany

/-- Gravity preset modes, from `src/types.ts` (`enum GravityMode`). -/
inductive GravityMode where
  | EARTH_1G
  | MICRO_UG
deriving DecidableEq, Repr

/-- One entry of the grow-light colour table: display name, hex value string,
and spectral efficiency constant (`LIGHT_COLORS` entries in
`src/components/Controls.tsx`, lines 10–16). -/
structure LightColor where
  name : String
  value : String
  spectrum : ℚ
deriving DecidableEq, Repr

/-- The first entry of `LIGHT_COLORS` (`LIGHT_COLORS[0]`), which is also the
fallback used when a colour lookup fails. -/
def whiteLight : LightColor := ⟨"White", "#ffffff", 0.9⟩

/-- The `LIGHT_COLORS` table from `src/components/Controls.tsx` lines 10–16. -/
def LIGHT_COLORS : List LightColor :=
  [whiteLight,
   ⟨"Red", "#ff0000", 1.0⟩,
   ⟨"Blue", "#0000ff", 1.0⟩,
   ⟨"Green", "#00ff00", 0.4⟩,
   ⟨"Far-Red", "#8b0000", 0.2⟩]

/-- The record returned by `calculatePhysics` (`src/components/Controls.tsx`
lines 80–87). -/
structure DerivedState where
  boundaryLayerThickness : ℚ
  co2Flux : ℚ
  o2Flux : ℚ
  stressLevel : ℚ
  temperature : ℚ
  photosyntheticEfficiency : ℚ
deriving DecidableEq, Repr

/-- Source line 32: `const convectionFactor = 0.2 + (gravity * 0.8);`
(computed but never read afterwards). -/
def convectionFactor (gravity : ℚ) : ℚ := 0.2 + gravity * 0.8

/-- The divisor of the velocity-scrubbing step, source line 37:
`1.0 + velocity * 0.5`. -/
def thicknessDivisor (velocity : ℚ) : ℚ := 1.0 + velocity * 0.5

/-- Source line 37: `thickness = thickness / (1.0 + velocity * 0.5);`. -/
def thicknessAfterVelocity (thickness velocity : ℚ) : ℚ :=
  thickness / thicknessDivisor velocity

/-- Source line 38:
`const clampedThickness = Math.min(Math.max(thickness, 0.2), 4.0);`. -/
def clampThickness (thickness : ℚ) : ℚ := min (max thickness 0.2) 4.0

/-- Source line 41: `const resistance = clampedThickness * 2.0;`. -/
def resistanceOf (clampedThickness : ℚ) : ℚ := clampedThickness * 2.0

/-- Source line 42:
`const calcCo2Flux = (co2Lvl * 0.2) / Math.max(resistance, 0.5);`. -/
def co2FluxOf (co2Lvl resistance : ℚ) : ℚ := (co2Lvl * 0.2) / max resistance 0.5

/-- Source line 43: `const calcO2Flux = calcCo2Flux * 0.9;`. -/
def o2FluxOf (calcCo2Flux : ℚ) : ℚ := calcCo2Flux * 0.9

/-- Source line 49: `const heatTrapping = clampedThickness * 3.0;`. -/
def heatTrappingOf (clampedThickness : ℚ) : ℚ := clampedThickness * 3.0

/-- Source line 50: `const radiantHeat = lightInt * 2.5;`. -/
def radiantHeatOf (lightInt : ℚ) : ℚ := lightInt * 2.5

/-- Source line 51: `const leafTemp = ambientTemp + heatTrapping + radiantHeat;`. -/
def leafTempOf (ambientTemp heatTrapping radiantHeat : ℚ) : ℚ :=
  ambientTemp + heatTrapping + radiantHeat

/-- Source line 55:
`const lightInfo = LIGHT_COLORS.find(c => c.value === lightCol) || LIGHT_COLORS[0];`.
The fallback `LIGHT_COLORS[0]` is `whiteLight`. -/
def lightLookup (lightCol : String) : LightColor :=
  (LIGHT_COLORS.find? (fun c => c.value == lightCol)).getD whiteLight

/-- Source line 59: `let intensityFactor = Math.min(lightInt / 2.0, 1.2);`. -/
def intensityFactorOf (lightInt : ℚ) : ℚ := min (lightInt / 2.0) 1.2

/-- Source lines 62–64: `tempPenalty` starts at `1.0`, is overwritten by
`Math.max(0, 1.0 - (leafTemp - 30) * 0.1)` when `leafTemp > 30`, then by
`Math.max(0, 1.0 - (15 - leafTemp) * 0.1)` when `leafTemp < 15`
(two sequential `if` statements, modelled in the same order). -/
def tempPenaltyOf (leafTemp : ℚ) : ℚ :=
  let p := (1.0 : ℚ)
  let p := if leafTemp > 30 then max 0 (1.0 - (leafTemp - 30) * 0.1) else p
  let p := if leafTemp < 15 then max 0 (1.0 - (15 - leafTemp) * 0.1) else p
  p

/-- Source line 67: `let co2Penalty = Math.min(calcCo2Flux / 40.0, 1.0);`. -/
def co2PenaltyOf (calcCo2Flux : ℚ) : ℚ := min (calcCo2Flux / 40.0) 1.0

/-- Source lines 69–70:
`let efficiency = 100 * spectrumEfficiency * intensityFactor * tempPenalty * co2Penalty;`
then `efficiency = Math.min(Math.max(efficiency, 0), 100);`. -/
def efficiencyOf (spectrumEfficiency intensityFactor tempPenalty co2Penalty : ℚ) : ℚ :=
  let e := 100 * spectrumEfficiency * intensityFactor * tempPenalty * co2Penalty
  min (max e 0) 100

/-- Source lines 73–78: stress starts at `10`, gains `+30` if
`clampedThickness > 1.5`, `+30` if `calcCo2Flux < 15`,
`+(leafTemp - 30) * 5` if `leafTemp > 30`, `+20` if `efficiency < 30`,
and is finally capped by `Math.min(stress, 100)`. -/
def stressOf (clampedThickness calcCo2Flux leafTemp efficiency : ℚ) : ℚ :=
  let s := (10 : ℚ)
  let s := if clampedThickness > 1.5 then s + 30 else s
  let s := if calcCo2Flux < 15 then s + 30 else s
  let s := if leafTemp > 30 then s + (leafTemp - 30) * 5 else s
  let s := if efficiency < 30 then s + 20 else s
  min s 100

/-- The physics evaluator `calculatePhysics` from
`src/components/Controls.tsx` lines 21–88, composing the step definitions
above in the source's order. The parameters `gravity` and `o2Lvl` are
accepted but (beyond the dead `convectionFactor` binding) never used, exactly
as in the source. -/
def calculatePhysics (gravity velocity userThickness co2Lvl o2Lvl ambientTemp lightInt : ℚ)
    (lightCol : String) : DerivedState :=
  let convFac := convectionFactor gravity
  let thickness := userThickness
  let thickness := thicknessAfterVelocity thickness velocity
  let clampedThickness := clampThickness thickness
  let resistance := resistanceOf clampedThickness
  let calcCo2Flux := co2FluxOf co2Lvl resistance
  let calcO2Flux := o2FluxOf calcCo2Flux
  let heatTrapping := heatTrappingOf clampedThickness
  let radiantHeat := radiantHeatOf lightInt
  let leafTemp := leafTempOf ambientTemp heatTrapping radiantHeat
  let lightInfo := lightLookup lightCol
  let spectrumEfficiency := lightInfo.spectrum
  let intensityFactor := intensityFactorOf lightInt
  let tempPenalty := tempPenaltyOf leafTemp
  let co2Penalty := co2PenaltyOf calcCo2Flux
  let efficiency := efficiencyOf spectrumEfficiency intensityFactor tempPenalty co2Penalty
  let stress := stressOf clampedThickness calcCo2Flux leafTemp efficiency
  { boundaryLayerThickness := clampedThickness,
    co2Flux := calcCo2Flux,
    o2Flux := calcO2Flux,
    stressLevel := stress,
    temperature := leafTemp,
    photosyntheticEfficiency := efficiency }

/-- The full simulation state as held by the light-aware control panel and
specified in the data model: the `SimulationState` fields of `src/types.ts`
plus the `lightIntensity`, `lightColor` and `photosyntheticEfficiency` fields
the light-aware `Controls.tsx` reads and writes. -/
structure SimulationState where
  gravityMode : GravityMode
  gravityFactor : ℚ
  airVelocity : ℚ
  boundaryLayerThickness : ℚ
  co2Flux : ℚ
  o2Flux : ℚ
  temperature : ℚ
  ambientTemperature : ℚ
  stressLevel : ℚ
  ambientCO2 : ℚ
  ambientO2 : ℚ
  lightIntensity : ℚ
  lightColor : String
  photosyntheticEfficiency : ℚ
deriving DecidableEq, Repr

/-- A partial update (the `overrides` object passed to `updateState`): each
field is `some v` when the triggering event supplies it and `none` otherwise.
Only the input fields that some call site of `updateState` actually passes
are representable, which covers every call in `Controls.tsx`. -/
structure StateOverrides where
  gravityMode : Option GravityMode
  gravityFactor : Option ℚ
  airVelocity : Option ℚ
  boundaryLayerThickness : Option ℚ
  ambientCO2 : Option ℚ
  ambientO2 : Option ℚ
  ambientTemperature : Option ℚ
  lightIntensity : Option ℚ
  lightColor : Option String
deriving DecidableEq, Repr

/-- The overrides object with no field present. -/
def noOverrides : StateOverrides :=
  ⟨none, none, none, none, none, none, none, none, none⟩

/-- The JavaScript spread `const merged = { ...state, ...overrides };`
(source line 92): each overridden field replaces the previous one, all others
are carried over. -/
def mergeState (s : SimulationState) (o : StateOverrides) : SimulationState :=
  { s with
    gravityMode := o.gravityMode.getD s.gravityMode,
    gravityFactor := o.gravityFactor.getD s.gravityFactor,
    airVelocity := o.airVelocity.getD s.airVelocity,
    boundaryLayerThickness := o.boundaryLayerThickness.getD s.boundaryLayerThickness,
    ambientCO2 := o.ambientCO2.getD s.ambientCO2,
    ambientO2 := o.ambientO2.getD s.ambientO2,
    ambientTemperature := o.ambientTemperature.getD s.ambientTemperature,
    lightIntensity := o.lightIntensity.getD s.lightIntensity,
    lightColor := o.lightColor.getD s.lightColor }

/-- The `updateState` wrapper (`src/components/Controls.tsx` lines 91–119):
merge the overrides into the previous state, evaluate `calculatePhysics` on
the merged inputs — passing the override's `boundaryLayerThickness` as base
thickness when present, the previous state's otherwise — and publish
`{ ...merged, ...physics }`. -/
def updateState (s : SimulationState) (o : StateOverrides) : SimulationState :=
  let merged := mergeState s o
  let baseThickness :=
    match o.boundaryLayerThickness with
    | some t => t
    | none => s.boundaryLayerThickness
  let physics := calculatePhysics merged.gravityFactor merged.airVelocity baseThickness
      merged.ambientCO2 merged.ambientO2 merged.ambientTemperature
      merged.lightIntensity merged.lightColor
  { merged with
    boundaryLayerThickness := physics.boundaryLayerThickness,
    co2Flux := physics.co2Flux,
    o2Flux := physics.o2Flux,
    stressLevel := physics.stressLevel,
    temperature := physics.temperature,
    photosyntheticEfficiency := physics.photosyntheticEfficiency }

/-- The preset resolver `handlePreset` (`src/components/Controls.tsx`
lines 121–131): Earth mode sets gravity `1.0` and base thickness `0.4`,
microgravity sets gravity `0.0` and base thickness `2.5`, and the update is
delegated to `updateState`. -/
def handlePreset (s : SimulationState) (mode : GravityMode) : SimulationState :=
  let isEarth := mode = GravityMode.EARTH_1G
  let newGravity : ℚ := if isEarth then 1.0 else 0.0
  let newThickness : ℚ := if isEarth then 0.4 else 2.5
  updateState s
    { noOverrides with
      gravityMode := some mode,
      gravityFactor := some newGravity,
      boundaryLayerThickness := some newThickness }

/-- The `SimulationState` interface exactly as declared in `src/types.ts`
(no light or efficiency fields), the shape of the literal initial snapshot. -/
structure SimulationStateDecl where
  gravityMode : GravityMode
  gravityFactor : ℚ
  airVelocity : ℚ
  boundaryLayerThickness : ℚ
  co2Flux : ℚ
  o2Flux : ℚ
  temperature : ℚ
  ambientTemperature : ℚ
  stressLevel : ℚ
  ambientCO2 : ℚ
  ambientO2 : ℚ
deriving DecidableEq, Repr

/-- The literal initial snapshot `INITIAL_STATE` from the constants module
bundled in `src/types.ts` (lines 300–312). -/
def INITIAL_STATE : SimulationStateDecl :=
  { gravityMode := GravityMode.EARTH_1G,
    gravityFactor := 1.0,
    airVelocity := 1.0,
    boundaryLayerThickness := 0.4,
    co2Flux := 50,
    o2Flux := 45,
    temperature := 22,
    ambientTemperature := 22,
    stressLevel := 0,
    ambientCO2 := 400,
    ambientO2 := 21 }

/-! Helper lemmas about the individual physics steps. -/

/-- Rewriting the sequential-if stress accumulator into a sum of guarded
increments. -/
lemma stressOf_eq (ct f lt e : ℚ) :
    stressOf ct f lt e =
      min (10 + (if ct > 1.5 then (30 : ℚ) else 0) + (if f < 15 then (30 : ℚ) else 0)
        + (if lt > 30 then (lt - 30) * 5 else 0) + (if e < 30 then (20 : ℚ) else 0)) 100 := by
  unfold stressOf
  split_ifs <;> norm_num

/-- Stress never drops below its additive base of 10. -/
lemma stressOf_ge_ten (ct f lt e : ℚ) : 10 ≤ stressOf ct f lt e := by
  rw [stressOf_eq]
  have h1 : (0 : ℚ) ≤ if ct > 1.5 then (30 : ℚ) else 0 := by split <;> norm_num
  have h2 : (0 : ℚ) ≤ if f < 15 then (30 : ℚ) else 0 := by split <;> norm_num
  have h3 : (0 : ℚ) ≤ if lt > 30 then (lt - 30) * 5 else 0 := by
    split
    · nlinarith
    · exact le_refl 0
  have h4 : (0 : ℚ) ≤ if e < 30 then (20 : ℚ) else 0 := by split <;> norm_num
  exact le_min (by linarith) (by norm_num)

/-- Stress is capped at 100 by the final `Math.min`. -/
lemma stressOf_le_hundred (ct f lt e : ℚ) : stressOf ct f lt e ≤ 100 :=
  min_le_right _ _

/-- Efficiency is clamped below by 0. -/
lemma efficiencyOf_nonneg (se intf tp cp : ℚ) : 0 ≤ efficiencyOf se intf tp cp :=
  le_min (le_max_right _ _) (by norm_num)

/-- Efficiency is clamped above by 100. -/
lemma efficiencyOf_le_hundred (se intf tp cp : ℚ) : efficiencyOf se intf tp cp ≤ 100 :=
  min_le_right _ _

/-- The thickness clamp never returns less than 0.2. -/
lemma clampThickness_ge (t : ℚ) : 0.2 ≤ clampThickness t :=
  le_min (le_max_right _ _) (by norm_num)

/-- The thickness clamp never returns more than 4.0. -/
lemma clampThickness_le (t : ℚ) : clampThickness t ≤ 4.0 :=
  min_le_right _ _

/-- The thickness clamp is monotone. -/
lemma clampThickness_mono {x y : ℚ} (h : x ≤ y) : clampThickness x ≤ clampThickness y :=
  min_le_min (max_le_max h le_rfl) le_rfl

/-- The thickness divisor is positive whenever velocity is nonnegative. -/
lemma thicknessDivisor_pos {v : ℚ} (hv : 0 ≤ v) : 0 < thicknessDivisor v := by
  unfold thicknessDivisor
  linarith

/-- Projection lemmas: each output field of `calculatePhysics` in terms of
the step definitions. -/
lemma calculatePhysics_boundary (g v t c o a l : ℚ) (col : String) :
    (calculatePhysics g v t c o a l col).boundaryLayerThickness
      = clampThickness (thicknessAfterVelocity t v) := rfl

/-- The CO2 flux field of `calculatePhysics` in terms of the step
definitions. -/
lemma calculatePhysics_co2Flux (g v t c o a l : ℚ) (col : String) :
    (calculatePhysics g v t c o a l col).co2Flux
      = co2FluxOf c (resistanceOf (clampThickness (thicknessAfterVelocity t v))) := rfl

/-- The temperature field of `calculatePhysics` in terms of the step
definitions. -/
lemma calculatePhysics_temperature (g v t c o a l : ℚ) (col : String) :
    (calculatePhysics g v t c o a l col).temperature
      = leafTempOf a (heatTrappingOf (clampThickness (thicknessAfterVelocity t v)))
          (radiantHeatOf l) := rfl

/-- The stress field of `calculatePhysics` is a `stressOf` application. -/
lemma calculatePhysics_stress (g v t c o a l : ℚ) (col : String) :
    ∃ ct f lt e, (calculatePhysics g v t c o a l col).stressLevel = stressOf ct f lt e :=
  ⟨_, _, _, _, rfl⟩

/-- The efficiency field of `calculatePhysics` is an `efficiencyOf`
application. -/
lemma calculatePhysics_efficiency (g v t c o a l : ℚ) (col : String) :
    ∃ se intf tp cp,
      (calculatePhysics g v t c o a l col).photosyntheticEfficiency
        = efficiencyOf se intf tp cp :=
  ⟨_, _, _, _, rfl⟩

/-- The divisor of the thickness step is nonzero away from velocity `-2`. -/
lemma thicknessDivisor_ne_zero {v : ℚ} (hv : v ≠ -2) : thicknessDivisor v ≠ 0 := by
  unfold thicknessDivisor
  intro h
  apply hv
  linarith

/-- The CO2 flux magnitude is bounded by `0.4` times the ambient CO2
magnitude, thanks to the `max(resistance, 0.5)` divisor floor. -/
lemma co2FluxOf_abs_le (c r : ℚ) : |co2FluxOf c r| ≤ |c| * 0.4 := by
  unfold co2FluxOf
  have hd : (0.5 : ℚ) ≤ max r 0.5 := le_max_right _ _
  have hdpos : (0 : ℚ) < max r 0.5 := lt_of_lt_of_le (by norm_num) hd
  rw [abs_div, abs_of_pos hdpos]
  calc |c * 0.2| / max r 0.5 ≤ |c * 0.2| / 0.5 :=
        div_le_div_of_nonneg_left (abs_nonneg _) (by norm_num) hd
    _ = |c| * 0.4 := by
        rw [abs_mul, abs_of_pos (show (0 : ℚ) < 0.2 by norm_num)]
        ring

/-- The leaf temperature differs from the ambient temperature by at most the
maximal heat trapping (12) plus the radiant-heat magnitude. -/
lemma leafTemp_abs_bound (a l ct : ℚ) (h1 : 0.2 ≤ ct) (h2 : ct ≤ 4.0) :
    |leafTempOf a (heatTrappingOf ct) (radiantHeatOf l) - a| ≤ 12 + |l| * 2.5 := by
  unfold leafTempOf heatTrappingOf radiantHeatOf
  have hdiff : a + ct * 3.0 + l * 2.5 - a = ct * 3.0 + l * 2.5 := by ring
  rw [hdiff]
  have h3 : |ct * 3.0| ≤ 12 := abs_le.mpr ⟨by linarith, by linarith⟩
  have h4 : |l * 2.5| = |l| * 2.5 := by
    rw [abs_mul, abs_of_pos (show (0 : ℚ) < 2.5 by norm_num)]
  have habs : |ct * 3.0 + l * 2.5| ≤ |ct * 3.0| + |l * 2.5| := abs_add _ _
  rw [h4] at habs
  linarith

/-- Lookup of any colour string outside the five table values falls back to
the first table entry (White). -/
lemma lightLookup_unknown (col : String) (h1 : col ≠ "#ffffff") (h2 : col ≠ "#ff0000")
    (h3 : col ≠ "#0000ff") (h4 : col ≠ "#00ff00") (h5 : col ≠ "#8b0000") :
    lightLookup col = whiteLight := by
  simp [lightLookup, LIGHT_COLORS, whiteLight, List.find?,
    beq_eq_false_iff_ne.mpr (Ne.symm h1), beq_eq_false_iff_ne.mpr (Ne.symm h2),
    beq_eq_false_iff_ne.mpr (Ne.symm h3), beq_eq_false_iff_ne.mpr (Ne.symm h4),
    beq_eq_false_iff_ne.mpr (Ne.symm h5)]

/-! Claim theorems. -/

/-- C1 (counterexample): on the Scenario A inputs (gravity 1, velocity 0,
base thickness 0.4, CO2 400, O2 21, ambient 22 °C, light 0, White) the
evaluator does NOT return stress 10: the `efficiency < 30` penalty fires
(zero light makes efficiency 0), so the claimed stress value is wrong. -/
theorem C1_scenarioA_stress_counterexample :
    (calculatePhysics 1.0 0 0.4 400 21 22 0 "#ffffff").stressLevel ≠ 10 := by
  norm_num [calculatePhysics, convectionFactor, thicknessAfterVelocity, thicknessDivisor,
    clampThickness, resistanceOf, co2FluxOf, o2FluxOf, heatTrappingOf, radiantHeatOf,
    leafTempOf, lightLookup, LIGHT_COLORS, whiteLight, intensityFactorOf, tempPenaltyOf,
    co2PenaltyOf, efficiencyOf, stressOf, List.find?, min_def, max_def]

/-- C1 (amended): Scenario A yields thickness 0.4, resistance 0.8, CO2 flux
100, O2 flux 90, heat trapping 1.2, temperature 23.2 — as claimed — but
stress 30, not 10: efficiency is 0 (< 30) at zero light, so that one stress
threshold IS crossed and adds 20 to the base 10. -/
theorem C1_scenarioA_amended :
    (calculatePhysics 1.0 0 0.4 400 21 22 0 "#ffffff").boundaryLayerThickness = 0.4
    ∧ resistanceOf (calculatePhysics 1.0 0 0.4 400 21 22 0 "#ffffff").boundaryLayerThickness = 0.8
    ∧ (calculatePhysics 1.0 0 0.4 400 21 22 0 "#ffffff").co2Flux = 100
    ∧ (calculatePhysics 1.0 0 0.4 400 21 22 0 "#ffffff").o2Flux = 90
    ∧ heatTrappingOf (calculatePhysics 1.0 0 0.4 400 21 22 0 "#ffffff").boundaryLayerThickness = 1.2
    ∧ (calculatePhysics 1.0 0 0.4 400 21 22 0 "#ffffff").temperature = 23.2
    ∧ (calculatePhysics 1.0 0 0.4 400 21 22 0 "#ffffff").photosyntheticEfficiency = 0
    ∧ (calculatePhysics 1.0 0 0.4 400 21 22 0 "#ffffff").stressLevel = 30 := by
  norm_num [calculatePhysics, convectionFactor, thicknessAfterVelocity, thicknessDivisor,
    clampThickness, resistanceOf, co2FluxOf, o2FluxOf, heatTrappingOf, radiantHeatOf,
    leafTempOf, lightLookup, LIGHT_COLORS, whiteLight, intensityFactorOf, tempPenaltyOf,
    co2PenaltyOf, efficiencyOf, stressOf, List.find?, min_def, max_def]

/-- C2: with the base thickness held fixed in [0.2, 4.0], the effective
boundary-layer thickness is monotonically non-increasing in velocity
(velocities nonnegative) and always lies in [0.2, 4.0]. -/
theorem C2_thickness_monotone_bounded (g c o a l : ℚ) (col : String) (b v1 v2 : ℚ)
    (hb0 : 0.2 ≤ b) (hb1 : b ≤ 4.0) (hv1 : 0 ≤ v1) (h12 : v1 ≤ v2) :
    (calculatePhysics g v2 b c o a l col).boundaryLayerThickness
      ≤ (calculatePhysics g v1 b c o a l col).boundaryLayerThickness
    ∧ 0.2 ≤ (calculatePhysics g v1 b c o a l col).boundaryLayerThickness
    ∧ (calculatePhysics g v1 b c o a l col).boundaryLayerThickness ≤ 4.0 := by
  simp only [calculatePhysics_boundary]
  refine ⟨?_, clampThickness_ge _, clampThickness_le _⟩
  apply clampThickness_mono
  unfold thicknessAfterVelocity
  apply div_le_div_of_nonneg_left (by linarith) (thicknessDivisor_pos hv1)
  unfold thicknessDivisor
  linarith

/-- Witness for C2 at the Scenario A/B inputs (velocities 0 and 5). -/
theorem C2_witness :
    (calculatePhysics 1.0 5 0.4 400 21 22 0 "#ffffff").boundaryLayerThickness
      ≤ (calculatePhysics 1.0 0 0.4 400 21 22 0 "#ffffff").boundaryLayerThickness
    ∧ 0.2 ≤ (calculatePhysics 1.0 0 0.4 400 21 22 0 "#ffffff").boundaryLayerThickness
    ∧ (calculatePhysics 1.0 0 0.4 400 21 22 0 "#ffffff").boundaryLayerThickness ≤ 4.0 :=
  C2_thickness_monotone_bounded 1.0 400 21 22 0 "#ffffff" 0.4 0 5
    (by norm_num) (by norm_num) (by norm_num) (by norm_num)

/-- C3: for inputs inside every declared domain the returned stress level and
photosynthetic efficiency lie in [0, 100]. -/
theorem C3_stress_efficiency_in_range (g v t c o a l : ℚ) (col : String)
    (hg0 : 0 ≤ g) (hg1 : g ≤ 1) (hv0 : 0 ≤ v) (hv1 : v ≤ 5)
    (ht0 : 0.2 ≤ t) (ht1 : t ≤ 4.0) (hc0 : 200 ≤ c) (hc1 : c ≤ 1500)
    (ho0 : 15 ≤ o) (ho1 : o ≤ 30) (ha0 : 15 ≤ a) (ha1 : a ≤ 35)
    (hl0 : 0 ≤ l) (hl1 : l ≤ 5)
    (hcol : col ∈ ["#ffffff", "#ff0000", "#0000ff", "#00ff00", "#8b0000"]) :
    0 ≤ (calculatePhysics g v t c o a l col).stressLevel
    ∧ (calculatePhysics g v t c o a l col).stressLevel ≤ 100
    ∧ 0 ≤ (calculatePhysics g v t c o a l col).photosyntheticEfficiency
    ∧ (calculatePhysics g v t c o a l col).photosyntheticEfficiency ≤ 100 := by
  obtain ⟨ct, f, lt, e, hs⟩ := calculatePhysics_stress g v t c o a l col
  obtain ⟨se, intf, tp, cp, he⟩ := calculatePhysics_efficiency g v t c o a l col
  rw [hs, he]
  exact ⟨le_trans (by norm_num) (stressOf_ge_ten ct f lt e), stressOf_le_hundred ct f lt e,
    efficiencyOf_nonneg se intf tp cp, efficiencyOf_le_hundred se intf tp cp⟩

/-- Witness for C3 at the initial-snapshot inputs. -/
theorem C3_witness :
    0 ≤ (calculatePhysics 1 1 0.4 400 21 22 1 "#ffffff").stressLevel
    ∧ (calculatePhysics 1 1 0.4 400 21 22 1 "#ffffff").stressLevel ≤ 100
    ∧ 0 ≤ (calculatePhysics 1 1 0.4 400 21 22 1 "#ffffff").photosyntheticEfficiency
    ∧ (calculatePhysics 1 1 0.4 400 21 22 1 "#ffffff").photosyntheticEfficiency ≤ 100 :=
  C3_stress_efficiency_in_range 1 1 0.4 400 21 22 1 "#ffffff"
    (by norm_num) (by norm_num) (by norm_num) (by norm_num) (by norm_num) (by norm_num)
    (by norm_num) (by norm_num) (by norm_num) (by norm_num) (by norm_num) (by norm_num)
    (by norm_num) (by norm_num) (by simp)

/-- C4 (counterexample): the claim that no input causes a division by zero
is false: at velocity = -2 the divisor `1 + velocity * 0.5` of the thickness
step is exactly zero. -/
theorem C4_divisor_zero_counterexample :
    thicknessDivisor (-2) = 0 ∧ ¬ (∀ v : ℚ, thicknessDivisor v ≠ 0) := by
  constructor
  · norm_num [thicknessDivisor]
  · intro h
    exact h (-2) (by norm_num [thicknessDivisor])

/-- C4 (amended): for every input tuple whose velocity is not -2 (the one
value that zeroes the thickness divisor), evaluation involves no zero
divisor — the thickness divisor is nonzero and the flux divisor
`max(resistance, 0.5)` is positive — and every output is bounded: thickness
in [0.2, 4.0], |co2Flux| ≤ |co2| * 0.4, |o2Flux| ≤ |co2| * 0.4 * 0.9,
temperature within 12 + |light| * 2.5 of ambient, efficiency in [0, 100] and
stress in [10, 100]. -/
theorem C4_totality_amended (g v t c o a l : ℚ) (col : String) (hv : v ≠ -2) :
    thicknessDivisor v ≠ 0
    ∧ (0 : ℚ) < max (resistanceOf (calculatePhysics g v t c o a l col).boundaryLayerThickness) 0.5
    ∧ 0.2 ≤ (calculatePhysics g v t c o a l col).boundaryLayerThickness
    ∧ (calculatePhysics g v t c o a l col).boundaryLayerThickness ≤ 4.0
    ∧ |(calculatePhysics g v t c o a l col).co2Flux| ≤ |c| * 0.4
    ∧ |(calculatePhysics g v t c o a l col).o2Flux| ≤ |c| * 0.4 * 0.9
    ∧ |(calculatePhysics g v t c o a l col).temperature - a| ≤ 12 + |l| * 2.5
    ∧ 0 ≤ (calculatePhysics g v t c o a l col).photosyntheticEfficiency
    ∧ (calculatePhysics g v t c o a l col).photosyntheticEfficiency ≤ 100
    ∧ 10 ≤ (calculatePhysics g v t c o a l col).stressLevel
    ∧ (calculatePhysics g v t c o a l col).stressLevel ≤ 100 := by
  obtain ⟨ct, f, lt, e, hs⟩ := calculatePhysics_stress g v t c o a l col
  obtain ⟨se, intf, tp, cp, he⟩ := calculatePhysics_efficiency g v t c o a l col
  refine ⟨thicknessDivisor_ne_zero hv,
    lt_of_lt_of_le (by norm_num) (le_max_right _ _), ?_, ?_, ?_, ?_, ?_, ?_, ?_, ?_, ?_⟩
  · rw [calculatePhysics_boundary]
    exact clampThickness_ge _
  · rw [calculatePhysics_boundary]
    exact clampThickness_le _
  · rw [calculatePhysics_co2Flux]
    exact co2FluxOf_abs_le _ _
  · have hco2 : |(calculatePhysics g v t c o a l col).co2Flux| ≤ |c| * 0.4 := by
      rw [calculatePhysics_co2Flux]
      exact co2FluxOf_abs_le _ _
    have ho2 : (calculatePhysics g v t c o a l col).o2Flux
        = (calculatePhysics g v t c o a l col).co2Flux * 0.9 := rfl
    rw [ho2, abs_mul, abs_of_pos (show (0 : ℚ) < 0.9 by norm_num)]
    nlinarith [abs_nonneg (calculatePhysics g v t c o a l col).co2Flux]
  · rw [calculatePhysics_temperature]
    exact leafTemp_abs_bound a l _ (clampThickness_ge _) (clampThickness_le _)
  · rw [he]
    exact efficiencyOf_nonneg se intf tp cp
  · rw [he]
    exact efficiencyOf_le_hundred se intf tp cp
  · rw [hs]
    exact stressOf_ge_ten ct f lt e
  · rw [hs]
    exact stressOf_le_hundred ct f lt e

/-- Witness for C4 at an out-of-declared-range velocity (-1), the claim's
own example of a value the clamps must absorb. -/
theorem C4_witness :
    thicknessDivisor (-1) ≠ 0
    ∧ (0 : ℚ) < max (resistanceOf (calculatePhysics 1 (-1) 0.4 400 21 22 0 "#ffffff").boundaryLayerThickness) 0.5
    ∧ 0.2 ≤ (calculatePhysics 1 (-1) 0.4 400 21 22 0 "#ffffff").boundaryLayerThickness
    ∧ (calculatePhysics 1 (-1) 0.4 400 21 22 0 "#ffffff").boundaryLayerThickness ≤ 4.0
    ∧ |(calculatePhysics 1 (-1) 0.4 400 21 22 0 "#ffffff").co2Flux| ≤ |(400 : ℚ)| * 0.4
    ∧ |(calculatePhysics 1 (-1) 0.4 400 21 22 0 "#ffffff").o2Flux| ≤ |(400 : ℚ)| * 0.4 * 0.9
    ∧ |(calculatePhysics 1 (-1) 0.4 400 21 22 0 "#ffffff").temperature - 22| ≤ 12 + |(0 : ℚ)| * 2.5
    ∧ 0 ≤ (calculatePhysics 1 (-1) 0.4 400 21 22 0 "#ffffff").photosyntheticEfficiency
    ∧ (calculatePhysics 1 (-1) 0.4 400 21 22 0 "#ffffff").photosyntheticEfficiency ≤ 100
    ∧ 10 ≤ (calculatePhysics 1 (-1) 0.4 400 21 22 0 "#ffffff").stressLevel
    ∧ (calculatePhysics 1 (-1) 0.4 400 21 22 0 "#ffffff").stressLevel ≤ 100 :=
  C4_totality_amended 1 (-1) 0.4 400 21 22 0 "#ffffff" (by norm_num)

/-- C5: resolving the EARTH_1G preset publishes gravity factor 1.0 and the
derived fields of `calculatePhysics` run on base thickness 0.4, and the
MICRO_UG preset publishes gravity factor 0.0 with base thickness 2.5 —
regardless of the prior state's thickness, with velocity, gases, temperature
and light passed through unchanged. -/
theorem C5_preset_resolution (s : SimulationState) :
    handlePreset s GravityMode.EARTH_1G =
      { gravityMode := GravityMode.EARTH_1G,
        gravityFactor := 1.0,
        airVelocity := s.airVelocity,
        boundaryLayerThickness := (calculatePhysics 1.0 s.airVelocity 0.4 s.ambientCO2
          s.ambientO2 s.ambientTemperature s.lightIntensity s.lightColor).boundaryLayerThickness,
        co2Flux := (calculatePhysics 1.0 s.airVelocity 0.4 s.ambientCO2
          s.ambientO2 s.ambientTemperature s.lightIntensity s.lightColor).co2Flux,
        o2Flux := (calculatePhysics 1.0 s.airVelocity 0.4 s.ambientCO2
          s.ambientO2 s.ambientTemperature s.lightIntensity s.lightColor).o2Flux,
        temperature := (calculatePhysics 1.0 s.airVelocity 0.4 s.ambientCO2
          s.ambientO2 s.ambientTemperature s.lightIntensity s.lightColor).temperature,
        ambientTemperature := s.ambientTemperature,
        stressLevel := (calculatePhysics 1.0 s.airVelocity 0.4 s.ambientCO2
          s.ambientO2 s.ambientTemperature s.lightIntensity s.lightColor).stressLevel,
        ambientCO2 := s.ambientCO2,
        ambientO2 := s.ambientO2,
        lightIntensity := s.lightIntensity,
        lightColor := s.lightColor,
        photosyntheticEfficiency := (calculatePhysics 1.0 s.airVelocity 0.4 s.ambientCO2
          s.ambientO2 s.ambientTemperature s.lightIntensity s.lightColor).photosyntheticEfficiency }
    ∧ handlePreset s GravityMode.MICRO_UG =
      { gravityMode := GravityMode.MICRO_UG,
        gravityFactor := 0.0,
        airVelocity := s.airVelocity,
        boundaryLayerThickness := (calculatePhysics 0.0 s.airVelocity 2.5 s.ambientCO2
          s.ambientO2 s.ambientTemperature s.lightIntensity s.lightColor).boundaryLayerThickness,
        co2Flux := (calculatePhysics 0.0 s.airVelocity 2.5 s.ambientCO2
          s.ambientO2 s.ambientTemperature s.lightIntensity s.lightColor).co2Flux,
        o2Flux := (calculatePhysics 0.0 s.airVelocity 2.5 s.ambientCO2
          s.ambientO2 s.ambientTemperature s.lightIntensity s.lightColor).o2Flux,
        temperature := (calculatePhysics 0.0 s.airVelocity 2.5 s.ambientCO2
          s.ambientO2 s.ambientTemperature s.lightIntensity s.lightColor).temperature,
        ambientTemperature := s.ambientTemperature,
        stressLevel := (calculatePhysics 0.0 s.airVelocity 2.5 s.ambientCO2
          s.ambientO2 s.ambientTemperature s.lightIntensity s.lightColor).stressLevel,
        ambientCO2 := s.ambientCO2,
        ambientO2 := s.ambientO2,
        lightIntensity := s.lightIntensity,
        lightColor := s.lightColor,
        photosyntheticEfficiency := (calculatePhysics 0.0 s.airVelocity 2.5 s.ambientCO2
          s.ambientO2 s.ambientTemperature s.lightIntensity s.lightColor).photosyntheticEfficiency } :=
  ⟨rfl, rfl⟩

/-- C6: Scenario B (velocity 5): the raw thickness 0.4 / (1 + 2.5) = 4/35 is
below the 0.2 floor and is clamped up to 0.2, giving resistance 0.4, and the
CO2 flux divides by the floor max(0.4, 0.5) = 0.5, yielding 160. -/
theorem C6_scenarioB :
    thicknessAfterVelocity 0.4 5 = 4 / 35
    ∧ thicknessAfterVelocity 0.4 5 < 0.2
    ∧ (calculatePhysics 1.0 5 0.4 400 21 22 0 "#ffffff").boundaryLayerThickness = 0.2
    ∧ resistanceOf (calculatePhysics 1.0 5 0.4 400 21 22 0 "#ffffff").boundaryLayerThickness = 0.4
    ∧ max (resistanceOf (calculatePhysics 1.0 5 0.4 400 21 22 0 "#ffffff").boundaryLayerThickness) 0.5 = 0.5
    ∧ (calculatePhysics 1.0 5 0.4 400 21 22 0 "#ffffff").co2Flux = 160 := by
  norm_num [calculatePhysics, convectionFactor, thicknessAfterVelocity, thicknessDivisor,
    clampThickness, resistanceOf, co2FluxOf, o2FluxOf, heatTrappingOf, radiantHeatOf,
    leafTempOf, lightLookup, LIGHT_COLORS, whiteLight, intensityFactorOf, tempPenaltyOf,
    co2PenaltyOf, efficiencyOf, stressOf, List.find?, min_def, max_def]

/-- C7: the returned O2 efflux equals exactly 0.9 times the returned CO2
influx, for every input tuple. -/
theorem C7_o2_flux_fixed_ratio (g v t c o a l : ℚ) (col : String) :
    (calculatePhysics g v t c o a l col).o2Flux
      = (calculatePhysics g v t c o a l col).co2Flux * 0.9 := rfl

/-- C8: two input tuples differing only in gravity factor and/or ambient O2
produce identical derived outputs: gravity feeds only the dead
`convectionFactor` binding and ambient O2 is never read. -/
theorem C8_gravity_o2_noninterference (g g' o o' v t c a l : ℚ) (col : String) :
    calculatePhysics g v t c o a l col = calculatePhysics g' v t c o' a l col := rfl

/-- C9: every recomputed stress level is at least the additive base 10 (hence
lies in [10, 100] and is never 0), while the literal initial snapshot holds
stress 0 — a value no recomputation can reproduce. -/
theorem C9_stress_floor :
    INITIAL_STATE.stressLevel = 0
    ∧ ∀ g v t c o a l : ℚ, ∀ col : String,
        10 ≤ (calculatePhysics g v t c o a l col).stressLevel
        ∧ (calculatePhysics g v t c o a l col).stressLevel ≤ 100
        ∧ (calculatePhysics g v t c o a l col).stressLevel ≠ 0 := by
  refine ⟨rfl, fun g v t c o a l col => ?_⟩
  obtain ⟨ct, f, lt, e, hs⟩ := calculatePhysics_stress g v t c o a l col
  rw [hs]
  refine ⟨stressOf_ge_ten ct f lt e, stressOf_le_hundred ct f lt e, ?_⟩
  have h10 := stressOf_ge_ten ct f lt e
  intro h0
  rw [h0] at h10
  norm_num at h10

/-- C10: any light colour string outside the five table values makes the
evaluator behave exactly as if White (#ffffff, spectrum 0.9) were passed:
the two runs return identical derived outputs. -/
theorem C10_unknown_color_fallback (col : String) (g v t c o a l : ℚ)
    (h1 : col ≠ "#ffffff") (h2 : col ≠ "#ff0000") (h3 : col ≠ "#0000ff")
    (h4 : col ≠ "#00ff00") (h5 : col ≠ "#8b0000") :
    calculatePhysics g v t c o a l col = calculatePhysics g v t c o a l "#ffffff" := by
  have hwhite : lightLookup "#ffffff" = whiteLight := rfl
  have hl : lightLookup col = lightLookup "#ffffff" := by
    rw [lightLookup_unknown col h1 h2 h3 h4 h5, hwhite]
  unfold calculatePhysics
  rw [hl]

/-- Witness for C10 at the unknown colour string "blue". -/
theorem C10_witness :
    calculatePhysics 1 1 0.4 400 21 22 3 "blue" = calculatePhysics 1 1 0.4 400 21 22 3 "#ffffff" :=
  C10_unknown_color_fallback "blue" 1 1 0.4 400 21 22 3
    (by decide) (by decide) (by decide) (by decide) (by decide)

end AstroBotany
